import Mathlib

/-!
Verification development for the search-auto backend.

Shallow embedding of the parts of the code relevant to the frozen claims:
the credit ledger (backend/services/credits_service.py), the search endpoint
dispatch (backend/modules/search/router.py), the scrape/merge step
(backend/agents/search/steps/scrape_websites.py), the provider adapters
(backend/integrations/autodev_api.py, backend/integrations/autotrader_ca.py)
and the filter/rank tools (backend/agents/tools/search_tools.py).

Python strings are modelled by String, machine integers by Int, the falsy
checks of Python by explicit comparisons with 0 / emptiness, and fallible
code by Option / explicit outcome types.
-/

/-- Lower-cases every character, modelling Python str.lower().  The listings
and queries handled by the code are ASCII, where the two agree. -/
def strLower (s : String) : String := ⟨s.data.map Char.toLower⟩

/-- Upper-cases every character, modelling Python str.upper(). -/
def strUpper (s : String) : String := ⟨s.data.map Char.toUpper⟩

/-- Python's substring test (needle in hay), as a decidable check on the
underlying character lists. -/
def strContains (hay needle : String) : Bool := decide (needle.data <:+: hay.data)

/-! ## Credit ledger (backend/services/credits_service.py)

The User row carries credits_remaining (integer) and unlimited_searches
(boolean).  CreditsService.deduct_credit locks the row with
SELECT ... FOR UPDATE, so each call is an atomic check-and-decrement; the
claims are settled against that atomic transition. -/

/-- The per-user slice of the User row touched by CreditsService. -/
structure Account where
  credits_remaining : Int
  unlimited_searches : Bool
deriving DecidableEq

/-- Outcome of CreditsService.deduct_credit: normal return True, or the
AppException with HTTP status 402 raised when no credits remain. -/
inductive DeductOutcome
  | success
  | quotaExceeded
deriving DecidableEq

/-- CreditsService.check_quota for an existing user: unlimited plans always
pass, otherwise requires credits_remaining greater than 0. -/
def check_quota (a : Account) : Bool :=
  a.unlimited_searches || decide (0 < a.credits_remaining)

/-- CreditsService.deduct_credit for an existing user (the row lock makes
the body one atomic transition): unlimited users return success without
mutation; with credits_remaining less or equal 0 it raises the 402
AppException without mutation; otherwise it decrements by exactly one and
commits. -/
def deduct_credit (a : Account) : DeductOutcome × Account :=
  if a.unlimited_searches then (.success, a)
  else if a.credits_remaining ≤ 0 then (.quotaExceeded, a)
  else (.success, { a with credits_remaining := a.credits_remaining - 1 })

/-- CreditsService.add_credits for an existing user: unconditionally adds
amount (any Python int) and returns the new balance. -/
def add_credits (a : Account) (amount : Int) : Int × Account :=
  (a.credits_remaining + amount, { a with credits_remaining := a.credits_remaining + amount })

/-- CreditsService.set_unlimited for an existing user. -/
def set_unlimited (a : Account) (u : Bool) : Account :=
  { a with unlimited_searches := u }

/-- Serialized execution of n deduct_credit calls against one account.  The
SELECT ... FOR UPDATE row lock forces concurrent calls into some serial
order, and all calls are the same operation, so any interleaving of n calls
executes as this chain.  Returns the final account state, the number of
successful deductions and the number of QuotaExceeded failures. -/
def deduct_many : Nat → Account → Account × Nat × Nat
  | 0, a => (a, 0, 0)
  | n + 1, a =>
    let r := deduct_credit a
    let rest := deduct_many n r.2
    (rest.1,
     (if r.1 = .success then 1 else 0) + rest.2.1,
     (if r.1 = .quotaExceeded then 1 else 0) + rest.2.2)

/-! ## Provider adapters: price handling (backend/integrations)

AutoDevAPI._convert_listings_to_car_format and
AutoTraderCA._convert_listings_to_car_format.  A raw price field can be a
JSON integer or float, a formatted string, or anything else (absent, null,
object); floats are modelled as exact rationals and Python int()
truncation as rounding toward zero.  The Canadian conversion
int(price * 1.35) is modelled as the floor of price * 27/20 for the
positive prices that reach it; this agrees with the Python float result on
every input a theorem below touches (in particular int(0.5 * 1.35) = 0,
and a positive result for every positive integer input). -/

/-- A raw price field as seen by the adapters: a JSON integer or float, a
string, or any other truthy object. -/
inductive RawPrice
  | num (n : Int)
  | flt (q : ℚ)
  | txt (s : String)
  | other
deriving DecidableEq

/-- Python truthiness of a raw field value: the numbers 0 and 0.0 and the
empty string are falsy, any other object is truthy. -/
def pyTruthy : RawPrice → Bool
  | .num n => decide (n ≠ 0)
  | .flt q => decide (q ≠ 0)
  | .txt s => decide (s ≠ "")
  | .other => true

/-- Python x == 0 on a raw field value: true exactly for the numbers 0 and
0.0; a string or other object never compares equal to 0. -/
def pyEqZero : RawPrice → Bool
  | .num n => decide (n = 0)
  | .flt q => decide (q = 0)
  | .txt _ => false
  | .other => false

/-- Python int() truncation toward zero on a float. -/
def pyTrunc (q : ℚ) : Int := if q < 0 then ⌈q⌉ else ⌊q⌋

/-- Digit-string to numeral, for the int() parses below. -/
def digitsToInt (cs : List Char) : Int :=
  cs.foldl (fun acc c => 10 * acc + (Int.ofNat (c.toNat - '0'.toNat))) 0

/-- Python int(s) on a stripped string: an optional sign followed by at
least one digit parses, anything else raises ValueError (modelled none). -/
def pyIntParse (s : String) : Option Int :=
  match s.data with
  | [] => none
  | '-' :: rest =>
    if rest ≠ [] ∧ rest.all Char.isDigit then some (-(digitsToInt rest)) else none
  | cs =>
    if cs.all Char.isDigit then some (digitsToInt cs) else none

/-- AutoDevAPI price coercion for one listing (lines 144-154): a string
has "$", "," removed and surrounding spaces stripped then goes through
int(), with a parse failure dropping the listing; an int or float is used
as is; any other type drops the listing. -/
def autodev_price (p : RawPrice) : Option ℚ :=
  match p with
  | .num n => some (n : ℚ)
  | .flt q => some q
  | .txt s =>
    (pyIntParse ⟨(s.data.filter fun c => c ≠ '$' ∧ c ≠ ',').filter fun c => c ≠ ' '⟩).map
      fun k => (k : ℚ)
  | .other => none

/-- The fields of an Auto.dev raw listing the price claims depend on. -/
structure AdListing where
  vin : String
  price : RawPrice
deriving DecidableEq

/-- An emitted Auto.dev car, reduced to the fields the claims mention; the
adapter always emits a number here. -/
structure AdCar where
  vin : String
  price : ℚ
deriving DecidableEq

/-- The price AutoDevAPI emits for one listing (lines 144-156 and
241-243): an unparsable price drops the listing, as does a falsy or
non-positive one; a US target keeps the price, a Canadian target converts
it via int(price * 1.35). -/
def autodev_convert_one (targetCA : Bool) (p : RawPrice) : Option ℚ :=
  match autodev_price p with
  | none => none
  | some q =>
    if q ≤ 0 then none
    else some (if targetCA then ((⌊q * (27 / 20)⌋ : ℤ) : ℚ) else q)

/-- AutoDevAPI._convert_listings_to_car_format restricted to the fields
the price claims depend on. -/
def autodev_convert (targetCA : Bool) (ls : List AdListing) : List AdCar :=
  ls.filterMap fun l => (autodev_convert_one targetCA l.price).map fun q => ⟨l.vin, q⟩

/-- AutoTraderCA._extract_price (lines 491-504): ints and floats pass
through int(), strings keep only their digit characters (so a sign is
discarded) and parse to 0 when no digit remains; any other type yields
0. -/
def atca_extract_price (p : RawPrice) : Int :=
  match p with
  | .num n => n
  | .flt q => pyTrunc q
  | .txt s =>
    let digits := s.data.filter Char.isDigit
    if digits = [] then 0 else digitsToInt digits
  | .other => 0

/-- The fields of an AutoTrader.ca raw listing the price claims depend on:
the untyped pre-parsed price_cad exactly as the provider sent it, and the
price / price_str fields fed to _extract_price. -/
structure AtListing where
  vin : String
  price_cad : Option RawPrice
  price : RawPrice
  price_str : RawPrice
deriving DecidableEq

/-- The tail of the or-chain at lines 335-339:
_extract_price(price) or _extract_price(price_str), both integers, the
first kept when non-zero (truthy). -/
def atca_fallback (l : AtListing) : RawPrice :=
  let e1 := atca_extract_price l.price
  if e1 ≠ 0 then .num e1 else .num (atca_extract_price l.price_str)

/-- The price value AutoTraderCA._convert_listings_to_car_format computes
at lines 335-339: price_cad or _extract_price(price) or
_extract_price(price_str) with Python falsy-chaining - a truthy price_cad
of any type is kept unparsed, otherwise the integer fallback chain
applies. -/
def atca_listing_price (l : AtListing) : RawPrice :=
  match l.price_cad with
  | some v => if pyTruthy v then v else atca_fallback l
  | none => atca_fallback l

/-- An emitted AutoTrader.ca car: the price is whatever value the or-chain
produced, not necessarily a number. -/
structure AtCar where
  vin : String
  price : RawPrice
deriving DecidableEq

/-- AutoTraderCA._convert_listings_to_car_format restricted to the price
path (lines 331-343, with no brand/model criteria set): a listing whose
computed price compares Python-equal to 0 is skipped, every other listing
is emitted with that value unchanged, whatever its type. -/
def atca_convert (ls : List AtListing) : List AtCar :=
  ls.filterMap fun l =>
    let p := atca_listing_price l
    if pyEqZero p then none else some ⟨l.vin, p⟩

/-! ## Scrape/merge step (backend/agents/search/steps/scrape_websites.py)

Lines 89-99: the per-provider scrapes run under asyncio.gather with
return_exceptions=True, and the combined list extends with every result
that is a list, skipping exceptions.  No deduplication of any kind is
applied before the combined list is returned. -/

/-- A scraped listing, reduced to the fields the dedup claim mentions. -/
structure ScrapedCar where
  vin : String
  title : String
deriving DecidableEq

/-- The merge of per-provider results in scrape_websites (lines 97-99): a
provider task either produced a list or raised (Except.error); the lists
are concatenated in provider order, exceptions contribute nothing. -/
def combine_results (rs : List (Except Unit (List ScrapedCar))) : List ScrapedCar :=
  rs.foldl (fun acc r => match r with | .ok l => acc ++ l | .error _ => acc) []

/-! ## Feature filter (backend/agents/tools/search_tools.py, lines 155-164)

filter_cars_by_criteria with required_features set keeps a car when every
requested token, lower-cased, appears as a substring of some lower-cased
feature string or of the lower-cased description. -/

/-- The fields of a car dict the feature filter reads, together with the
color field the spec names as a third candidate field. -/
structure FilterCar where
  features : List String
  description : String
  color : String
deriving DecidableEq

/-- has_features from filter_cars_by_criteria (lines 157-163): conjunctive
over the requested tokens; each token matches inside one of the feature
strings or inside the description, all case-insensitively. -/
def has_features (required : List String) (car : FilterCar) : Bool :=
  required.all fun req =>
    (car.features.any fun f => strContains (strLower f) (strLower req)) ||
      strContains (strLower car.description) (strLower req)

/-- The feature-filter stage of filter_cars_by_criteria (line 156 and 164):
a Python-falsy (empty) required_features list skips the stage. -/
def filter_by_features (required : List String) (cars : List FilterCar) : List FilterCar :=
  if required.isEmpty then cars else cars.filter (has_features required)

/-- Modelled from the spec's words, for comparison with the code: for each
required token, a case-insensitive match in at least one of the features
list, the description text, or the color field. -/
def specFeatureMatch (required : List String) (car : FilterCar) : Prop :=
  ∀ req ∈ required,
    (∃ f ∈ car.features, strContains (strLower f) (strLower req) = true) ∨
      strContains (strLower car.description) (strLower req) = true ∨
        strContains (strLower car.color) (strLower req) = true

instance (required : List String) (car : FilterCar) :
    Decidable (specFeatureMatch required car) := by
  unfold specFeatureMatch; infer_instance

/-- The candidate fields the code actually consults: the features list and
the description, but not the color field. -/
def codeFeatureMatch (required : List String) (car : FilterCar) : Prop :=
  ∀ req ∈ required,
    (∃ f ∈ car.features, strContains (strLower f) (strLower req) = true) ∨
      strContains (strLower car.description) (strLower req) = true

/-! ## Relevance scoring and ranking (backend/agents/tools/search_tools.py,
lines 198-230)

rank_cars_by_relevance.calculate_score starts from base 50, adds 20 when
the car's brand appears (lower-cased substring) in the query, 20 when the
model does, 15 when the brand is one of the preferred brands, 10 when some
preferred type is among the car's features, subtracts 10 for a falsy price
and 5 for a missing image; the list is then sorted by score descending with
Python's stable sort. -/

/-- The fields of a car dict the scorer reads. -/
structure RankCar where
  brand : String
  model : String
  price : Option Int
  images : List String
  features : List String
deriving DecidableEq

/-- The user_preferences dict fields the scorer reads. -/
structure Prefs where
  preferred_brands : List String
  preferred_types : List String
deriving DecidableEq

/-- Python falsiness of the price field: absent or equal to 0. -/
def priceFalsy : Option Int → Bool
  | none => true
  | some v => decide (v = 0)

/-- The preference bonus of calculate_score (lines 209-213): 15 for an
exact preferred-brand membership, 10 when some preferred type is a member
of the features list; 0 without a preferences dict. -/
def pref_bonus (prefs : Option Prefs) (car : RankCar) : Int :=
  match prefs with
  | none => 0
  | some pr =>
    (if car.brand ∈ pr.preferred_brands then 15 else 0) +
      (if pr.preferred_types.any fun t => t ∈ car.features then 10 else 0)

/-- rank_cars_by_relevance.calculate_score (lines 198-221). -/
def calculate_score (query : String) (prefs : Option Prefs) (car : RankCar) : Int :=
  50 + (if strContains (strLower query) (strLower car.brand) then 20 else 0) +
    (if strContains (strLower query) (strLower car.model) then 20 else 0) +
    pref_bonus prefs car -
    (if priceFalsy car.price then 10 else 0) -
    (if car.images.isEmpty then 5 else 0)

/-- The comparison used by rank_cars: a may precede b when a's score is at
least b's, which sorted(key=match_score, reverse=True) realizes stably. -/
def scoreGE (a b : RankCar × Int) : Bool := decide (b.2 ≤ a.2)

/-- rank_cars_by_relevance (lines 224-230): attach match_score to every
car, then stable-sort by score descending. -/
def rank_cars (query : String) (prefs : Option Prefs) (cars : List RankCar) :
    List (RankCar × Int) :=
  (cars.map fun c => (c, calculate_score query prefs c)).mergeSort scoreGE

/-! ## Search endpoint dispatch (backend/modules/search/router.py,
lines 338-403)

search_cars checks the quota (raising the 402 AppException when it fails),
deducts a credit (re-raising only the 402 failure), then awaits the
pipeline under asyncio.wait_for: a TimeoutError becomes the 408
AppException, any other exception becomes the 500 AppException, and a
completed pipeline - including one with zero cars - returns a successful
SearchResponse. -/

/-- What the awaited pipeline body did: hit the overall deadline, complete
with a list of cars (possibly empty: every provider absorbed its failure
into an empty list), or raise some non-timeout exception. -/
inductive PipeOutcome
  | timeout
  | completed (cars : List RankCar)
  | raised
deriving DecidableEq

/-- What crosses the endpoint boundary: a successful SearchResponse with
its count and results, or an AppException with its HTTP status code. -/
inductive SearchReply
  | ok (count : Nat) (results : List RankCar)
  | fail (status : Nat)
deriving DecidableEq

/-- The search_cars endpoint dispatch (lines 352-403), over the account
state and the pipeline outcome.  Persistence and reloading of a nonempty
result list are collaborator calls that hand back the same ranked cars, so
the reply carries the pipeline's list directly. -/
def search_cars (a : Account) (o : PipeOutcome) : SearchReply × Account :=
  if check_quota a = false then (.fail 402, a)
  else
    match deduct_credit a with
    | (.quotaExceeded, a1) => (.fail 402, a1)
    | (.success, a1) =>
      match o with
      | .timeout => (.fail 408, a1)
      | .raised => (.fail 500, a1)
      | .completed cars => (.ok cars.length cars, a1)

/-! ## Geo resolution (backend/integrations/autodev_api.py lines 285-337 and
backend/integrations/autotrader_ca.py lines 298-305)

AutoDevAPI._resolve_geo_targets cleans the postal code (spaces removed,
upper-cased), truncates Canadian codes to the three-character FSA, and asks
pgeocode for coordinates; when the code does not resolve it falls back to a
known-city table.  pgeocode.query_postal_code returns the row matching the
queried code (postal_code equal to the query) or NaN coordinates, so the
resolved postal the code keeps (record.postal_code if present, else the
cleaned code) is always the cleaned, possibly truncated code; the lookup
table itself is external data, modelled as a function parameter.
AutoTraderCA._normalize_postal strips non-alphanumerics, upper-cases and
validates the full six-character pattern, returning None on a mismatch. -/

/-- The postal-to-coordinate table (pgeocode's offline data): country code
and cleaned postal code to latitude/longitude, when the code is known. -/
def GeoDB : Type := String → String → Option (ℚ × ℚ)

/-- AutoDevAPI holds geocoders only for CA and US (lines 46-49). -/
def has_geocoder (country : String) : Bool := country = "CA" || country = "US"

/-- AutoDevAPI._postal_to_latlon (lines 307-326): empty code fails, spaces
are removed and the code upper-cased, a Canadian code is truncated to its
first three characters, and the geocoder for the country is queried; the
resolved postal returned alongside the coordinates is the queried code. -/
def postal_to_latlon (geo : GeoDB) (postal : String) (country : String) :
    Option (ℚ × ℚ × String) :=
  if postal = "" then none
  else
    let cleaned : String := ⟨(postal.data.filter fun c => c ≠ ' ').map Char.toUpper⟩
    let cleaned := if country = "CA" then (⟨cleaned.data.take 3⟩ : String) else cleaned
    if has_geocoder country then
      match geo country cleaned with
      | none => none
      | some (la, lo) => some (la, lo, cleaned)
    else none

/-- CANADIAN_CITY_POSTALS of autodev_api.py (lines 19-30), in insertion
order. -/
def canadian_city_postals : List (String × String) :=
  [("vancouver", "V5K"), ("toronto", "M5H"), ("montreal", "H1A"),
   ("calgary", "T2P"), ("ottawa", "K1A"), ("edmonton", "T5J"),
   ("winnipeg", "R3C"), ("mississauga", "L5B"), ("victoria", "V8W"),
   ("hamilton", "L8P")]

/-- AutoDevAPI._city_to_postal (lines 328-337): for Canada, the first city
of the table contained in the lower-cased location. -/
def city_to_postal (location : String) (country : String) : Option String :=
  if location = "" then none
  else if country = "CA" then
    (canadian_city_postals.find? fun kv => strContains (strLower location) kv.1).map (·.2)
  else none

/-- The query parameters _resolve_geo_targets reads. -/
structure GeoParams where
  country : Option String
  postal_code : Option String
  location : Option String

/-- The GeoTarget tuple _resolve_geo_targets returns: country, optional
coordinates, optional resolved postal.  The function is total: every
failure path degrades to None fields, never an exception. -/
structure GeoTarget where
  country : String
  latitude : Option ℚ
  longitude : Option ℚ
  resolved_postal : Option String
deriving DecidableEq

/-- AutoDevAPI._resolve_geo_targets (lines 285-305): country defaults to
US and is upper-cased; an explicit postal code is geocoded first; when that
leaves no coordinates and a location is given, the known-city table
supplies a fallback postal to geocode; otherwise the target keeps only the
country with null coordinates. -/
def resolve_geo_targets (geo : GeoDB) (q : GeoParams) : GeoTarget :=
  let country := strUpper (match q.country with
    | none => "US"
    | some c => if c = "" then "US" else c)
  let first := match q.postal_code with
    | none => none
    | some p => if p = "" then none else postal_to_latlon geo p country
  match first with
  | some (la, lo, rp) => ⟨country, some la, some lo, some rp⟩
  | none =>
    match q.location with
    | none => ⟨country, none, none, none⟩
    | some loc =>
      if loc = "" then ⟨country, none, none, none⟩
      else
        match city_to_postal loc country with
        | none => ⟨country, none, none, none⟩
        | some fp =>
          match postal_to_latlon geo fp country with
          | none => ⟨country, none, none, none⟩
          | some (la, lo, rp) => ⟨country, some la, some lo, some rp⟩

/-- The first-position character class of POSTAL_CODE_PATTERN in
autotrader_ca.py (line 103). -/
def postal_letter1 (c : Char) : Bool :=
  c ∈ ['A', 'B', 'C', 'E', 'G', 'H', 'J', 'K', 'L', 'M', 'N', 'P', 'R', 'S', 'T', 'V', 'X', 'Y']

/-- The interior character class [ABCEGHJ-NPRSTV-Z] of the same pattern. -/
def postal_letter2 (c : Char) : Bool :=
  c ∈ ['A', 'B', 'C', 'E', 'G', 'H', 'J', 'K', 'L', 'M', 'N', 'P', 'R', 'S', 'T', 'V', 'W', 'X', 'Y', 'Z']

/-- POSTAL_CODE_PATTERN: exactly six characters alternating letter-digit
with the Canadian letter classes. -/
def postal_code_pattern (s : String) : Bool :=
  match s.data with
  | [a, b, c, d, e, f] =>
    postal_letter1 a && b.isDigit && postal_letter2 c && d.isDigit && postal_letter2 e && f.isDigit
  | _ => false

/-- AutoTraderCA._normalize_postal (lines 298-305): falsy input yields
None; otherwise non-alphanumerics are stripped and the rest upper-cased,
and a pattern mismatch yields None rather than an error. -/
def normalize_postal (p : Option String) : Option String :=
  match p with
  | none => none
  | some s =>
    if s = "" then none
    else
      let cleaned : String := ⟨(s.data.filter Char.isAlphanum).map Char.toUpper⟩
      if postal_code_pattern cleaned then some cleaned else none

/-- A concrete geocoder table holding the Toronto FSA, for the closed
scenario instances below. -/
def geoToronto : GeoDB := fun country postal =>
  if country = "CA" ∧ postal = "M5H" then some (43, -79) else none

/-! ## Concrete data for the scenario instances -/

/-- The VIN of Scenario A, returned by both providers. -/
def shared_vin : String := "1HGCM82633A004352"

/-- Five listings from the first provider, one carrying the shared VIN. -/
def provider1_cars : List ScrapedCar :=
  [⟨shared_vin, "Toyota Camry"⟩, ⟨"JT2BF22K1W0123456", "Toyota Corolla"⟩,
   ⟨"4T1BE46K67U654321", "Toyota Avalon"⟩, ⟨"2T1BURHE5FC111222", "Toyota Matrix"⟩,
   ⟨"5TDZA23C13S333444", "Toyota Sienna"⟩]

/-- Three listings from the second provider, one carrying the shared VIN. -/
def provider2_cars : List ScrapedCar :=
  [⟨"1NXBR32E84Z555666", "Toyota RAV4"⟩, ⟨shared_vin, "Toyota Camry"⟩,
   ⟨"JTDKB20U773777888", "Toyota Prius"⟩]

/-- A car whose only occurrence of the requested token is in its color
field. -/
def red_car : FilterCar := ⟨[], "", "red"⟩

/-- A car collecting every scoring bonus of calculate_score. -/
def max_car : RankCar := ⟨"a", "b", some 1, ["img"], ["t"]⟩

/-- Preferences matching max_car's brand and features. -/
def max_prefs : Prefs := ⟨["a"], ["t"]⟩

/-- Decidability of the code-side feature condition, for the concrete
instances below. -/
instance (required : List String) (car : FilterCar) :
    Decidable (codeFeatureMatch required car) := by
  unfold codeFeatureMatch; infer_instance

/-- has_features decides exactly the conjunctive/disjunctive condition over
the features list and the description. -/
theorem has_features_iff (required : List String) (car : FilterCar) :
    has_features required car = true ↔ codeFeatureMatch required car := by
  unfold has_features codeFeatureMatch
  simp [List.all_eq_true, List.any_eq_true]

/-! ## Claim theorems -/

/-- C2: for an account in a valid state, one deduct_credit call returns
success without mutation when unlimited is set; otherwise with a positive
balance it succeeds and decrements by exactly one; otherwise it raises the
QuotaExceeded failure and leaves the account unchanged (all-or-nothing). -/
theorem deduct_credit_spec (a : Account) (h : 0 ≤ a.credits_remaining) :
    (a.unlimited_searches = true → deduct_credit a = (.success, a)) ∧
    (a.unlimited_searches = false → 0 < a.credits_remaining →
      (deduct_credit a).1 = .success ∧
        (deduct_credit a).2.credits_remaining = a.credits_remaining - 1 ∧
        (deduct_credit a).2.unlimited_searches = false) ∧
    (a.unlimited_searches = false → a.credits_remaining = 0 →
      deduct_credit a = (.quotaExceeded, a)) := by
  refine ⟨fun hu => ?_, fun hu hc => ?_, fun hu hc => ?_⟩
  · simp [deduct_credit, hu]
  · unfold deduct_credit
    rw [if_neg (by simp [hu]), if_neg (by omega)]
    exact ⟨rfl, rfl, hu⟩
  · unfold deduct_credit
    rw [if_neg (by simp [hu]), if_pos (by omega)]

/-- Witness for deduct_credit_spec at concrete accounts. -/
theorem deduct_credit_spec_witness :
    (deduct_credit ⟨2, false⟩).1 = .success ∧
    (deduct_credit ⟨2, false⟩).2.credits_remaining = 1 ∧
    deduct_credit ⟨0, false⟩ = (.quotaExceeded, ⟨0, false⟩) ∧
    deduct_credit ⟨7, true⟩ = (.success, ⟨7, true⟩) := by
  have h1 := (deduct_credit_spec ⟨2, false⟩ (by norm_num)).2.1 rfl (by norm_num)
  have h2 := (deduct_credit_spec ⟨0, false⟩ (by norm_num)).2.2 rfl rfl
  have h3 := (deduct_credit_spec ⟨7, true⟩ (by norm_num)).1 rfl
  refine ⟨h1.1, ?_, h2, h3⟩
  rw [h1.2.1]
  norm_num

/-- C3: the SELECT FOR UPDATE row lock serializes concurrent deductions,
so any two concurrent calls on an account with one credit execute as the
chain deduct_many 2 and resolve to exactly one success and one
QuotaExceeded with final balance 0; an unlimited account is never mutated
by any number of calls, all of which succeed. -/
theorem ledger_atomicity :
    (∀ a : Account, a.credits_remaining = 1 → a.unlimited_searches = false →
      deduct_many 2 a = (⟨0, false⟩, 1, 1)) ∧
    (∀ (n : Nat) (a : Account), a.unlimited_searches = true →
      deduct_many n a = (a, n, 0)) := by
  constructor
  · rintro ⟨c, u⟩ hc hu
    simp only at hc hu
    subst hc; subst hu
    decide
  · intro n
    induction n with
    | zero => intro a _; rfl
    | succ n ih =>
      intro a h
      have hd : deduct_credit a = (.success, a) := by simp [deduct_credit, h]
      simp [deduct_many, hd, ih a h, Nat.add_comm]

/-- Witness for ledger_atomicity at concrete accounts. -/
theorem ledger_atomicity_witness :
    deduct_many 2 ⟨1, false⟩ = (⟨0, false⟩, 1, 1) ∧
    deduct_many 3 ⟨5, true⟩ = (⟨5, true⟩, 3, 0) :=
  ⟨ledger_atomicity.1 ⟨1, false⟩ rfl rfl, ledger_atomicity.2 3 ⟨5, true⟩ rfl⟩

/-- C4 counterexample: the claim quantifies over every integer argument the
operations accept, but add_credits performs no sign check, so adding -1 to
a valid account with balance 0 leaves a negative balance. -/
theorem add_credits_negative_amount_breaks_invariant :
    0 ≤ (⟨0, false⟩ : Account).credits_remaining ∧
    (add_credits ⟨0, false⟩ (-1)).2.credits_remaining = -1 ∧
    ¬ 0 ≤ (add_credits ⟨0, false⟩ (-1)).2.credits_remaining := by decide

/-- C4 amended: check_quota reads without mutating, and deduct_credit and
set_unlimited preserve a non-negative balance for every input, but
add_credits preserves it only for non-negative amounts. -/
theorem ledger_nonneg_invariant (a : Account) (amount : Int) (u : Bool)
    (h : 0 ≤ a.credits_remaining) :
    0 ≤ (deduct_credit a).2.credits_remaining ∧
    0 ≤ (set_unlimited a u).credits_remaining ∧
    (0 ≤ amount → 0 ≤ (add_credits a amount).2.credits_remaining) := by
  refine ⟨?_, h, fun ha => ?_⟩
  · unfold deduct_credit
    split_ifs
    · exact h
    · exact h
    · show 0 ≤ a.credits_remaining - 1
      omega
  · show 0 ≤ a.credits_remaining + amount
    omega

/-- Witness for ledger_nonneg_invariant at a concrete account and amount. -/
theorem ledger_nonneg_invariant_witness :
    0 ≤ (deduct_credit ⟨3, false⟩).2.credits_remaining ∧
    0 ≤ (set_unlimited ⟨3, false⟩ true).credits_remaining ∧
    0 ≤ (add_credits ⟨3, false⟩ 7).2.credits_remaining := by
  have h := ledger_nonneg_invariant ⟨3, false⟩ 7 true (by norm_num)
  exact ⟨h.1, h.2.1, h.2.2 (by norm_num)⟩

/-- A passing quota check implies the deduction taken right after it
succeeds: unlimited accounts bypass, and a positive balance clears the
credits branch. -/
theorem check_quota_deduct (a : Account) (h : check_quota a = true) :
    (deduct_credit a).1 = .success := by
  unfold check_quota at h
  unfold deduct_credit
  cases hu : a.unlimited_searches
  · have hc : 0 < a.credits_remaining := by
      rw [hu] at h
      simpa using h
    rw [if_neg (by simp [hu]), if_neg (by omega)]
  · simp [hu]

/-- C5 counterexample: a non-timeout exception inside the awaited pipeline
body is re-raised by search_cars as the typed 500 AppException, a third
failure kind crossing the endpoint boundary besides QuotaExceeded (402)
and the timeout failure (408). -/
theorem internal_error_crosses_as_500 :
    search_cars ⟨5, false⟩ .raised = (.fail 500, ⟨4, false⟩) ∧
    (500 : Nat) ≠ 402 ∧ (500 : Nat) ≠ 408 := by
  refine ⟨rfl, by norm_num, by norm_num⟩

/-- C5 amended: every failure crossing search_cars is one of the typed
AppExceptions 402 (quota), 408 (pipeline timeout) or 500 (other internal
error); deadline expiry yields the 408 failure, never an empty success;
and a completed pipeline in which every provider contributed an empty list
yields a successful empty reply, never an error. -/
theorem search_cars_outcome_spec (a : Account) (o : PipeOutcome) :
    (∀ s, (search_cars a o).1 = .fail s → s = 402 ∨ s = 408 ∨ s = 500) ∧
    (check_quota a = true → o = .timeout → (search_cars a o).1 = .fail 408) ∧
    (check_quota a = true → o = .completed [] → (search_cars a o).1 = .ok 0 []) := by
  refine ⟨fun s hs => ?_, fun hq ho => ?_, fun hq ho => ?_⟩
  · unfold search_cars at hs
    split_ifs at hs with h1
    · cases hs
      norm_num
    · rcases hd : deduct_credit a with ⟨r, a1⟩
      rw [hd] at hs
      cases r
      · cases o <;> simp_all
      · cases hs
        norm_num
  · rcases hd : deduct_credit a with ⟨r, a1⟩
    have hr : r = .success := by
      have := check_quota_deduct a hq
      rw [hd] at this
      exact this
    subst hr ho
    unfold search_cars
    rw [if_neg (by simp [hq]), hd]
  · rcases hd : deduct_credit a with ⟨r, a1⟩
    have hr : r = .success := by
      have := check_quota_deduct a hq
      rw [hd] at this
      exact this
    subst hr ho
    unfold search_cars
    rw [if_neg (by simp [hq]), hd]
    rfl

/-- Witness for search_cars_outcome_spec at a concrete account. -/
theorem search_cars_outcome_spec_witness :
    (search_cars ⟨1, false⟩ .timeout).1 = .fail 408 ∧
    (search_cars ⟨1, false⟩ (.completed [])).1 = .ok 0 [] :=
  ⟨(search_cars_outcome_spec ⟨1, false⟩ .timeout).2.1 rfl rfl,
   (search_cars_outcome_spec ⟨1, false⟩ (.completed [])).2.2 rfl rfl⟩

/-- C1 counterexample: scrape_websites merges provider results by plain
concatenation, so when both providers return the Scenario A VIN the merged
set has 8 listings, not 7, and two distinct listings share that non-empty
VIN. -/
theorem scrape_merge_keeps_duplicate_vins :
    (combine_results [.ok provider1_cars, .ok provider2_cars]).length = 8 ∧
    (combine_results [.ok provider1_cars, .ok provider2_cars]).length ≠ 7 ∧
    ((combine_results [.ok provider1_cars, .ok provider2_cars]).map (·.vin)).count
      shared_vin = 2 ∧
    shared_vin ≠ "" := by
  refine ⟨rfl, by decide, by decide, by decide⟩

/-- C1 amended: the merge step applies no deduplication; the combined set
is the concatenation of the provider lists, so 5 listings from one
provider and 3 from another yield exactly 8 merged listings even when a
VIN appears in both. -/
theorem scrape_merge_is_concatenation (l1 l2 : List ScrapedCar)
    (h1 : l1.length = 5) (h2 : l2.length = 3) :
    combine_results [.ok l1, .ok l2] = l1 ++ l2 ∧
    (combine_results [.ok l1, .ok l2]).length = 8 := by
  have he : combine_results [.ok l1, .ok l2] = l1 ++ l2 := by
    simp [combine_results]
  exact ⟨he, by simp [he, h1, h2]⟩

/-- Witness for scrape_merge_is_concatenation at the Scenario A lists. -/
theorem scrape_merge_is_concatenation_witness :
    combine_results [.ok provider1_cars, .ok provider2_cars] =
      provider1_cars ++ provider2_cars ∧
    (combine_results [.ok provider1_cars, .ok provider2_cars]).length = 8 :=
  scrape_merge_is_concatenation provider1_cars provider2_cars rfl rfl

/-- Membership in the AutoDev output comes from a listing whose
per-listing price emission produced the car's price. -/
theorem autodev_convert_mem (t : Bool) (ls : List AdListing) (car : AdCar)
    (h : car ∈ autodev_convert t ls) :
    ∃ l ∈ ls, autodev_convert_one t l.price = some car.price := by
  unfold autodev_convert at h
  obtain ⟨l, hl, heq⟩ := List.mem_filterMap.mp h
  rcases hc : autodev_convert_one t l.price with _ | q <;> rw [hc] at heq
  · cases heq
  · dsimp only [Option.map] at heq
    cases heq
    exact ⟨l, hl, hc⟩

/-- The per-listing AutoDev emission decomposes into a positive parsed
price and the target-dependent conversion. -/
theorem autodev_convert_one_cases (t : Bool) (p : RawPrice) (q : ℚ)
    (h : autodev_convert_one t p = some q) :
    ∃ q0 : ℚ, autodev_price p = some q0 ∧ 0 < q0 ∧
      q = if t then ((⌊q0 * (27 / 20)⌋ : ℤ) : ℚ) else q0 := by
  unfold autodev_convert_one at h
  rcases hp : autodev_price p with _ | q0 <;> rw [hp] at h
  · cases h
  · dsimp only at h
    by_cases hle : q0 ≤ 0
    · rw [if_pos hle] at h
      cases h
    · rw [if_neg hle] at h
      cases h
      exact ⟨q0, rfl, lt_of_not_le hle, rfl⟩

/-- The per-listing emission for a Canadian target on the float price
0.5: int(0.5 * 1.35) = 0. -/
theorem autodev_convert_one_flt_half : autodev_convert_one true (.flt (1 / 2)) = some 0 := by
  unfold autodev_convert_one autodev_price
  dsimp only
  rw [if_neg (by norm_num)]
  have h40 : (1 / 2 : ℚ) * (27 / 20) = 27 / 40 := by norm_num
  rw [h40]
  have hf : ⌊(27 / 40 : ℚ)⌋ = 0 := by
    rw [Int.floor_eq_zero_iff, Set.mem_Ico]
    constructor <;> norm_num
  rw [hf]
  norm_num

/-- The per-listing emission for a Canadian target on the integer price
20: int(20 * 1.35) = 27. -/
theorem autodev_convert_one_num20 : autodev_convert_one true (.num 20) = some 27 := by
  unfold autodev_convert_one autodev_price
  dsimp only
  rw [if_neg (by norm_num)]
  have h27 : ((20 : ℤ) : ℚ) * (27 / 20) = ((27 : ℤ) : ℚ) := by norm_num
  rw [h27, Int.floor_intCast]
  norm_num

/-- The per-listing emission for a US target on the integer price 20
passes it through unconverted. -/
theorem autodev_convert_one_num20_us : autodev_convert_one false (.num 20) = some 20 := by
  unfold autodev_convert_one autodev_price
  dsimp only
  rw [if_neg (by norm_num)]
  norm_num

/-- A Canadian-target conversion of the single float listing 0.5 emits the
car with price 0. -/
theorem autodev_flt_half (v : String) :
    autodev_convert true [⟨v, .flt (1 / 2)⟩] = [⟨v, 0⟩] := by
  unfold autodev_convert
  rw [List.filterMap_cons]
  dsimp only
  rw [autodev_convert_one_flt_half]
  rfl

/-- A Canadian-target conversion of the single integer listing 20 emits
the car with price 27. -/
theorem autodev_num20 (v : String) :
    autodev_convert true [⟨v, .num 20⟩] = [⟨v, 27⟩] := by
  unfold autodev_convert
  rw [List.filterMap_cons]
  dsimp only
  rw [autodev_convert_one_num20]
  rfl

/-- A US-target conversion of the single integer listing 20 emits the car
with price 20. -/
theorem autodev_num20_us (v : String) :
    autodev_convert false [⟨v, .num 20⟩] = [⟨v, 20⟩] := by
  unfold autodev_convert
  rw [List.filterMap_cons]
  dsimp only
  rw [autodev_convert_one_num20_us]
  rfl

/-- C6 counterexample: neither adapter guarantees a positive resolved
price.  AutoTraderCA passes a truthy pre-parsed price_cad through with no
sign or type check, emitting one listing with price -3 and another whose
price is not a number at all; and for a Canadian target AutoDev emits a
float price of 0.5 as int(0.5 * 1.35) = 0. -/
theorem adapter_nonpositive_price_emitted :
    atca_convert [⟨"VIN000", some (.num (-3)), .other, .other⟩] =
      [⟨"VIN000", .num (-3)⟩] ∧
    ¬ 0 < (-3 : Int) ∧
    atca_convert [⟨"VINSTR", some (.txt "contact dealer"), .other, .other⟩] =
      [⟨"VINSTR", .txt "contact dealer"⟩] ∧
    autodev_convert true [⟨"VINF", .flt (1 / 2)⟩] = [⟨"VINF", 0⟩] ∧
    ¬ 0 < (0 : ℚ) := by
  refine ⟨rfl, by norm_num, rfl, autodev_flt_half "VINF", by norm_num⟩

/-- C6 amended: both adapters drop the Scenario B listing whose price
string parses to no number; the AutoDev adapter always emits a
non-negative number, strictly positive for a US target and for every
integer-priced input list (a fractional Canadian price below 20/27 is
emitted as 0); the AutoTraderCA adapter only guarantees that the emitted
price value is not Python-equal to 0, a truthy pre-parsed price_cad of any
type being passed through unparsed. -/
theorem adapter_price_spec :
    (∀ (t : Bool) (ls : List AdListing) (car : AdCar),
        car ∈ autodev_convert t ls → 0 ≤ car.price) ∧
    (∀ (ls : List AdListing) (car : AdCar),
        car ∈ autodev_convert false ls → 0 < car.price) ∧
    (∀ (t : Bool) (ls : List AdListing) (car : AdCar),
        car ∈ autodev_convert t ls → (∀ l ∈ ls, ∃ n : Int, l.price = .num n) →
          0 < car.price) ∧
    (∀ (t : Bool) (v : String),
        autodev_convert t [⟨v, .txt "accepting_offers"⟩] = []) ∧
    (∀ v : String,
        atca_convert [⟨v, none, .txt "accepting_offers", .other⟩] = []) ∧
    (∀ (ls : List AtListing) (car : AtCar),
        car ∈ atca_convert ls → pyEqZero car.price = false) := by
  refine ⟨fun t ls car hmem => ?_, fun ls car hmem => ?_, fun t ls car hmem hint => ?_,
    fun t v => rfl, fun v => rfl, fun ls car hmem => ?_⟩
  · obtain ⟨l, _, hone⟩ := autodev_convert_mem t ls car hmem
    obtain ⟨q0, _, hq0, hq⟩ := autodev_convert_one_cases t l.price car.price hone
    rw [hq]
    cases t
    · simpa using le_of_lt hq0
    · simp only [eq_self_iff_true, if_true]
      have hf : (0 : ℤ) ≤ ⌊q0 * (27 / 20)⌋ :=
        Int.floor_nonneg.mpr (le_of_lt (by positivity))
      exact_mod_cast hf
  · obtain ⟨l, _, hone⟩ := autodev_convert_mem false ls car hmem
    obtain ⟨q0, _, hq0, hq⟩ := autodev_convert_one_cases false l.price car.price hone
    rw [hq]
    simpa using hq0
  · obtain ⟨l, hl, hone⟩ := autodev_convert_mem t ls car hmem
    obtain ⟨q0, hp, hq0, hq⟩ := autodev_convert_one_cases t l.price car.price hone
    obtain ⟨n, hn⟩ := hint l hl
    rw [hn] at hp
    have hq0n : q0 = (n : ℚ) := by
      have := hp.symm
      unfold autodev_price at this
      exact (Option.some.injEq _ _).mp this
    subst hq0n
    have hn1 : (1 : ℤ) ≤ n := by exact_mod_cast hq0
    rw [hq]
    cases t
    · simpa using hq0
    · simp only [eq_self_iff_true, if_true]
      have hge : (1 : ℚ) ≤ (n : ℚ) * (27 / 20) := by
        have hcast : (1 : ℚ) ≤ (n : ℚ) := by exact_mod_cast hn1
        nlinarith
      have hf : (1 : ℤ) ≤ ⌊(n : ℚ) * (27 / 20)⌋ := Int.le_floor.mpr (by exact_mod_cast hge)
      have : (0 : ℤ) < ⌊(n : ℚ) * (27 / 20)⌋ := by omega
      exact_mod_cast this
  · unfold atca_convert at hmem
    obtain ⟨l, _, heq⟩ := List.mem_filterMap.mp hmem
    dsimp only at heq
    by_cases hz : pyEqZero (atca_listing_price l) = true
    · rw [if_pos hz] at heq
      cases heq
    · rw [if_neg hz] at heq
      cases heq
      simpa using hz

/-- Witness for adapter_price_spec at concrete listings. -/
theorem adapter_price_spec_witness :
    0 ≤ (⟨"WF", 0⟩ : AdCar).price ∧
    0 < (⟨"WU", 20⟩ : AdCar).price ∧
    0 < (⟨"WC", 27⟩ : AdCar).price ∧
    autodev_convert true [⟨"W1", .txt "accepting_offers"⟩] = [] ∧
    atca_convert [⟨"W1", none, .txt "accepting_offers", .other⟩] = [] ∧
    pyEqZero (⟨"W2", .num (-3)⟩ : AtCar).price = false :=
  ⟨adapter_price_spec.1 true [⟨"WF", .flt (1 / 2)⟩] ⟨"WF", 0⟩
     (by rw [autodev_flt_half]; exact List.mem_singleton_self _),
   adapter_price_spec.2.1 [⟨"WU", .num 20⟩] ⟨"WU", 20⟩
     (by rw [autodev_num20_us]; exact List.mem_singleton_self _),
   adapter_price_spec.2.2.1 true [⟨"WC", .num 20⟩] ⟨"WC", 27⟩
     (by rw [autodev_num20]; exact List.mem_singleton_self _)
     (by
       intro l hl
       rw [List.mem_singleton] at hl
       subst hl
       exact ⟨20, rfl⟩),
   adapter_price_spec.2.2.2.1 true "W1",
   adapter_price_spec.2.2.2.2.1 "W1",
   adapter_price_spec.2.2.2.2.2 [⟨"W2", some (.num (-3)), .other, .other⟩]
     ⟨"W2", .num (-3)⟩ (by decide)⟩

/-- C7 counterexample: the spec lists the color field among the candidate
fields, but has_features consults only the features list and the
description, so a car whose only match for the requested token sits in its
color field is filtered out even though the claimed condition holds for
it. -/
theorem feature_filter_ignores_color :
    filter_by_features ["red"] [red_car] = [] ∧
    specFeatureMatch ["red"] red_car := by
  refine ⟨by decide, by decide⟩

/-- C7 amended: with a non-empty required_features list, a listing appears
in the filtered results exactly when every requested token finds a
case-insensitive substring match in the features list or in the
description - the color field plays no role. -/
theorem feature_filter_spec (required : List String) (cars : List FilterCar)
    (c : FilterCar) (h : required ≠ []) :
    c ∈ filter_by_features required cars ↔ c ∈ cars ∧ codeFeatureMatch required c := by
  unfold filter_by_features
  rw [if_neg (by simpa using h), List.mem_filter, has_features_iff]

/-- Witness for feature_filter_spec at a concrete car and token list. -/
theorem feature_filter_spec_witness :
    (⟨["Red Leather"], "", ""⟩ : FilterCar) ∈
      filter_by_features ["red"] [⟨["Red Leather"], "", ""⟩] :=
  (feature_filter_spec ["red"] [⟨["Red Leather"], "", ""⟩] ⟨["Red Leather"], "", ""⟩
    (by decide)).mpr ⟨by decide, by decide⟩

/-- The preference bonus lies between 0 and 25. -/
theorem pref_bonus_bounds (prefs : Option Prefs) (car : RankCar) :
    0 ≤ pref_bonus prefs car ∧ pref_bonus prefs car ≤ 25 := by
  unfold pref_bonus
  rcases prefs with _ | pr
  · norm_num
  · dsimp only
    split_ifs <;> norm_num

/-- C8 counterexample: calculate_score applies no clamp, so a car matched
by the query and by both preference lists scores 50+20+20+15+10 = 115,
outside [0, 100], and rank_cars assigns exactly that score. -/
theorem score_exceeds_100 :
    rank_cars "a b" (some max_prefs) [max_car] = [(max_car, 115)] ∧
    ¬ (115 : Int) ≤ 100 := by
  constructor
  · unfold rank_cars
    rw [List.map_singleton, List.mergeSort_singleton]
    decide
  · norm_num

/-- C8 amended: the score the ranking operation attaches to every listing
is an unclamped integer in [35, 115]: base 50, plus 20 for a brand match
in the query, 20 for a model match, 15 and 10 for preference matches,
minus 10 for a falsy price and 5 for missing images; there is no bonus for
having an image or a price and no clamp to [0, 100]. -/
theorem score_bounds (query : String) (prefs : Option Prefs) (cars : List RankCar)
    (c : RankCar) (s : Int) (h : (c, s) ∈ rank_cars query prefs cars) :
    35 ≤ s ∧ s ≤ 115 := by
  unfold rank_cars at h
  rw [List.mem_mergeSort] at h
  obtain ⟨x, _, he⟩ := List.mem_map.mp h
  have hs : s = calculate_score query prefs x := (Prod.mk.injEq _ _ _ _ |>.mp he.symm).2
  subst hs
  have hb := pref_bonus_bounds prefs x
  unfold calculate_score
  split_ifs <;> omega

/-- Witness for score_bounds at a concrete ranked listing. -/
theorem score_bounds_witness : 35 ≤ (115 : Int) ∧ (115 : Int) ≤ 115 :=
  score_bounds "a b" (some max_prefs) [max_car] max_car 115
    (by
      unfold rank_cars
      rw [List.map_singleton, List.mergeSort_singleton]
      decide)

/-- scoreGE is transitive. -/
theorem scoreGE_trans (a b c : RankCar × Int) :
    scoreGE a b = true → scoreGE b c = true → scoreGE a c = true := by
  unfold scoreGE
  simp only [decide_eq_true_eq]
  omega

/-- scoreGE is total. -/
theorem scoreGE_total (a b : RankCar × Int) : (scoreGE a b || scoreGE b a) = true := by
  unfold scoreGE
  simp only [Bool.or_eq_true, decide_eq_true_eq]
  omega

/-- C9: rank_cars returns a permutation of the scored input, sorted by
score in non-increasing order, and within every score class the output
preserves the input order (stability of the sort, first-seen-first-ranked). -/
theorem rank_stable_sort (query : String) (prefs : Option Prefs) (cars : List RankCar) :
    (rank_cars query prefs cars).Perm
      (cars.map fun c => (c, calculate_score query prefs c)) ∧
    (rank_cars query prefs cars).Pairwise (fun a b => b.2 ≤ a.2) ∧
    ∀ s : Int,
      (rank_cars query prefs cars).filter (fun x => decide (x.2 = s)) =
        (cars.map fun c => (c, calculate_score query prefs c)).filter
          (fun x => decide (x.2 = s)) := by
  refine ⟨List.mergeSort_perm _ scoreGE, ?_, fun s => ?_⟩
  · have hp := List.sorted_mergeSort scoreGE_trans scoreGE_total
      (cars.map fun c => (c, calculate_score query prefs c))
    exact hp.imp fun hab => by simpa [scoreGE] using hab
  · set scored := cars.map fun c => (c, calculate_score query prefs c) with hscored
    set p : RankCar × Int → Bool := fun x => decide (x.2 = s) with hpdef
    have hall : ∀ x ∈ scored.filter p, x.2 = s := by
      intro x hx
      have := List.of_mem_filter hx
      simpa [hpdef] using this
    have hpare : (scored.filter p).Pairwise (fun a b => scoreGE a b = true) := by
      refine List.pairwise_of_forall_mem_list ?_
      intro a ha b hb
      have h1 := hall a ha
      have h2 := hall b hb
      simp [scoreGE, h1, h2]
    have hsub : (scored.filter p).Sublist (scored.mergeSort scoreGE) :=
      List.sublist_mergeSort scoreGE_trans scoreGE_total hpare (List.filter_sublist scored)
    have hsub2 : (scored.filter p).Sublist ((scored.mergeSort scoreGE).filter p) := by
      have h2 := hsub.filter p
      have hself : ∀ a ∈ scored.filter p, p a = true := fun a ha => List.of_mem_filter ha
      rwa [List.filter_eq_self.mpr hself] at h2
    have hperm : ((scored.mergeSort scoreGE).filter p).Perm (scored.filter p) :=
      (List.mergeSort_perm scored scoreGE).filter p
    exact (hsub2.eq_of_length hperm.length_eq.symm).symm

/-- For the Scenario C inputs, the AutoDev postal lookup asks the table for
the three-character FSA "M5H" and, on a hit, reports "M5H" as the resolved
postal. -/
theorem postal_to_latlon_m5h (geo : GeoDB) :
    postal_to_latlon geo "M5H 2N2" "CA" =
      match geo "CA" "M5H" with
      | none => none
      | some (la, lo) => some (la, lo, "M5H") := rfl

/-- C10 counterexample: on a geocoder table that knows the Toronto FSA,
resolving postal_code = "M5H 2N2" with country = "CA" yields coordinates
but the resolved postal "M5H" (the code truncates Canadian postals to the
FSA before geocoding), not the claimed six-character "M5H2N2". -/
theorem geo_resolved_postal_is_fsa :
    resolve_geo_targets geoToronto ⟨some "CA", some "M5H 2N2", none⟩ =
      ⟨"CA", some 43, some (-79), some "M5H"⟩ ∧
    (some "M5H" : Option String) ≠ some "M5H2N2" := by
  refine ⟨rfl, by decide⟩

/-- C10 amended: resolution is total and drops malformed codes -
AutoTraderCA._normalize_postal returns None on any pattern mismatch and
yields the normalized six-character "M5H2N2" for "M5H 2N2" - while
AutoDevAPI._resolve_geo_targets answers the Scenario C query with the
table's coordinates for the FSA "M5H" and resolved postal "M5H" on a hit,
and a coordinate-free GeoTarget (never an error) on a miss. -/
theorem geo_resolution_spec :
    (∀ s : String,
        postal_code_pattern ⟨(s.data.filter Char.isAlphanum).map Char.toUpper⟩ = false →
          normalize_postal (some s) = none) ∧
    normalize_postal (some "M5H 2N2") = some "M5H2N2" ∧
    (∀ (geo : GeoDB) (la lo : ℚ), geo "CA" "M5H" = some (la, lo) →
        resolve_geo_targets geo ⟨some "CA", some "M5H 2N2", none⟩ =
          ⟨"CA", some la, some lo, some "M5H"⟩) ∧
    (∀ geo : GeoDB, geo "CA" "M5H" = none →
        resolve_geo_targets geo ⟨some "CA", some "M5H 2N2", none⟩ =
          ⟨"CA", none, none, none⟩) := by
  have key : ∀ geo : GeoDB,
      resolve_geo_targets geo ⟨some "CA", some "M5H 2N2", none⟩ =
        match postal_to_latlon geo "M5H 2N2" "CA" with
        | some (la, lo, rp) => ⟨"CA", some la, some lo, some rp⟩
        | none => ⟨"CA", none, none, none⟩ := fun geo => rfl
  refine ⟨fun s hpat => ?_, rfl, fun geo la lo h => ?_, fun geo h => ?_⟩
  · unfold normalize_postal
    dsimp only
    split_ifs with h1 h2
    · rfl
    · rw [hpat] at h2
      cases h2
    · rfl
  · rw [key geo, postal_to_latlon_m5h geo, h]
  · rw [key geo, postal_to_latlon_m5h geo, h]

/-- Witness for geo_resolution_spec at a malformed code and the concrete
Toronto table. -/
theorem geo_resolution_spec_witness :
    normalize_postal (some "12345") = none ∧
    normalize_postal (some "M5H 2N2") = some "M5H2N2" ∧
    resolve_geo_targets geoToronto ⟨some "CA", some "M5H 2N2", none⟩ =
      ⟨"CA", some 43, some (-79), some "M5H"⟩ :=
  ⟨geo_resolution_spec.1 "12345" (by decide),
   geo_resolution_spec.2.1,
   geo_resolution_spec.2.2.1 geoToronto 43 (-79) rfl⟩
